import Mathlib

/-!
Formal model of the flight-analytics dashboard (`src/app.py`).

The dashboard loads a CSV of flight records, draws a seeded random sample
(`flight.sample(n=sample_size, random_state=42)`, line 87), and dispatches on a
sidebar page selection to one of six views, each of which computes pandas
aggregations (`mean`, `std`, `corr`, `groupby`, `describe`) over either the full
dataset or the sample.

Rows are embedded as a `FlightRecord` structure over `ℚ` (numeric columns) and
`String` (categorical columns); a dataframe is a `List FlightRecord`.  Pandas
NaN results (mean of an empty column, std of a singleton with `ddof = 1`,
`first` of an empty group) are embedded as `Option.none` / `⊥`.  The pandas
pseudo-random sampler is embedded as a concrete seeded draw-without-replacement
(`drawAux`): a pure function of `(population size, n, seed)` picking `n`
pairwise-distinct positions, which is the interface `DataFrame.sample`
guarantees (the numeric stream of the generator itself is irrelevant to every
property below and is instantiated with a linear congruential generator).
-/

/-- One row of `FF_flights_data.csv`, restricted to the columns the dashboard
reads.  Numeric columns (`int64`/`float64` after `pd.read_csv`) are `ℚ`,
categorical columns are `String`. -/
structure FlightRecord where
  airline : String
  flight_number : ℚ
  origin_airport : String
  destination_airport : String
  scheduled_departure : ℚ
  departure_delay : ℚ
  arrival_delay : ℚ
  distance : ℚ
  day_of_week : ℚ
  month : ℚ
deriving DecidableEq, Repr, Inhabited

/-- Column mean, `Series.mean()`: `none` models the NaN pandas returns on an
empty column. -/
def colMean (xs : List ℚ) : Option ℚ :=
  if xs.isEmpty then none else some (xs.sum / (xs.length : ℚ))

/-- Round-half-to-even on `ℚ`, the tie-breaking rule of `numpy.round` which
backs `DataFrame.round`. -/
def roundHalfEven (q : ℚ) : ℤ :=
  let n := ⌊q⌋
  let f := q - (n : ℚ)
  if f < 1/2 then n
  else if 1/2 < f then n + 1
  else if Even n then n else n + 1

/-- `round(2)` on a rational entry: round half-to-even at two decimal places. -/
def round2 (q : ℚ) : ℚ := (roundHalfEven (q * 100) : ℚ) / 100

/-- Sample variance with `ddof = 1`, the default of `Series.std()`; `none`
models the NaN pandas returns when fewer than two observations are present. -/
def sampleVar (xs : List ℚ) : Option ℚ :=
  if xs.length ≤ 1 then none
  else
    let m := xs.sum / (xs.length : ℚ)
    some ((xs.map (fun x => (x - m) * (x - m))).sum / ((xs.length : ℚ) - 1))

/-- A step of the pseudo-random stream driving the sampler (glibc-style linear
congruential generator; any fixed generator realises the determinism of
`random_state=42`). -/
def lcg (s : ℕ) : ℕ := (1103515245 * s + 12345) % 2147483648

/-- Draw `n` elements without replacement from `pool`, each step removing the
picked element, the pick position driven by the seeded stream.  This is the
shape of `numpy.random.RandomState.choice(pop, size, replace=False)` (a seeded
partial Fisher–Yates permutation) that backs `DataFrame.sample`. -/
def drawAux : ℕ → ℕ → List ℕ → List ℕ
  | 0, _, _ => []
  | n + 1, s, pool =>
    if pool.isEmpty then []
    else
      let s' := lcg s
      let x := pool.getD (s' % pool.length) 0
      x :: drawAux n s' (pool.erase x)

/-- The `n` row positions `DataFrame.sample(n, random_state=seed)` selects from
a frame of `populationSize` rows. -/
def sampleIndices (populationSize n seed : ℕ) : List ℕ :=
  drawAux n seed (List.range populationSize)

/-- `flight.sample(n=n, random_state=seed)` (line 87): the rows of `d` at the
selected positions, in selection order. -/
def sampleList (d : List FlightRecord) (n seed : ℕ) : List FlightRecord :=
  (sampleIndices d.length n seed).map (fun i => d.getD i default)

/-- The ways `DataFrame.sample` raises `ValueError` for a bad requested size. -/
inductive SampleError where
  | negativeSize
  | sizeExceedsPopulation
deriving DecidableEq, Repr

/-- `DataFrame.sample(n, random_state=seed)` with its error behaviour: pandas
raises `ValueError` for a negative `n` and for `n` larger than the population
when `replace=False`; every other `n` (including `0`) returns a sample. -/
def sampleE (d : List FlightRecord) (n : ℤ) (seed : ℕ) :
    Except SampleError (List FlightRecord) :=
  if n < 0 then .error .negativeSize
  else if (d.length : ℤ) < n then .error .sizeExceedsPopulation
  else .ok (sampleList d n.toNat seed)

/-- Line 75: `max_sample_size = min(len(flight), 1000)`. -/
def max_sample_size (N : ℕ) : ℕ := min N 1000

/-- Line 76: `min_sample_size = min(100, max_sample_size - 1)` (Python
arithmetic, so the value may be `-1` when the dataset is empty). -/
def min_sample_size (N : ℕ) : ℤ := min 100 ((max_sample_size N : ℤ) - 1)

/-- Line 77: `default_size = min(500, max_sample_size)`. -/
def default_size (N : ℕ) : ℕ := min 500 (max_sample_size N)

/-- Lines 80–84: the sample sizes a user interaction can produce.  When
`max_sample_size > min_sample_size` the slider offers exactly the integers of
`[min_sample_size, max_sample_size]`; otherwise the size is forced to
`max_sample_size`. -/
def reachableSize (N : ℕ) (n : ℤ) : Bool :=
  if min_sample_size N < (max_sample_size N : ℤ) then
    decide (min_sample_size N ≤ n ∧ n ≤ (max_sample_size N : ℤ))
  else decide (n = (max_sample_size N : ℤ))

/-- A concrete three-row dataset used to instantiate the theorems; its
departure delays are the `[10, -5, 20]` of the spec's overview scenario. -/
def scenarioFlight : List FlightRecord :=
  [{ airline := "AA", flight_number := 1, origin_airport := "JFK",
     destination_airport := "LAX", scheduled_departure := 600,
     departure_delay := 10, arrival_delay := 7, distance := 2475,
     day_of_week := 1, month := 1 },
   { airline := "DL", flight_number := 2, origin_airport := "ATL",
     destination_airport := "ORD", scheduled_departure := 900,
     departure_delay := -5, arrival_delay := -2, distance := 606,
     day_of_week := 2, month := 1 },
   { airline := "AA", flight_number := 3, origin_airport := "JFK",
     destination_airport := "LAX", scheduled_departure := 1500,
     departure_delay := 20, arrival_delay := 25, distance := 2475,
     day_of_week := 3, month := 2 }]

lemma getD_mem_of_lt {l : List ℕ} {k : ℕ} (h : k < l.length) : l.getD k 0 ∈ l := by
  rw [List.getD_eq_getElem l 0 h]
  exact List.getElem_mem h

lemma drawAux_subset : ∀ (n s : ℕ) (pool : List ℕ), drawAux n s pool ⊆ pool := by
  intro n
  induction n with
  | zero => intro s pool; simp [drawAux]
  | succ n ih =>
    intro s pool
    by_cases hp : pool.isEmpty
    · simp [drawAux, hp]
    · simp only [drawAux, hp, if_false]
      intro a ha
      rcases List.mem_cons.mp ha with h | h
      · subst h
        exact getD_mem_of_lt (Nat.mod_lt _ (List.length_pos.mpr
          (by simpa [List.isEmpty_iff] using hp)))
      · exact List.erase_subset _ _ (ih _ _ h)

lemma drawAux_nodup : ∀ (n s : ℕ) (pool : List ℕ), pool.Nodup →
    (drawAux n s pool).Nodup := by
  intro n
  induction n with
  | zero => intro s pool _; simp [drawAux]
  | succ n ih =>
    intro s pool hnd
    by_cases hp : pool.isEmpty
    · simp [drawAux, hp]
    · simp only [drawAux, hp, if_false]
      refine List.nodup_cons.mpr ⟨?_, ih _ _ (hnd.erase _)⟩
      intro hmem
      have : pool.getD (lcg s % pool.length) 0 ∈
          pool.erase (pool.getD (lcg s % pool.length) 0) :=
        drawAux_subset _ _ _ hmem
      exact ((List.Nodup.mem_erase_iff hnd).mp this).1 rfl

lemma drawAux_length : ∀ (n s : ℕ) (pool : List ℕ), n ≤ pool.length →
    (drawAux n s pool).length = n := by
  intro n
  induction n with
  | zero => intro s pool _; simp [drawAux]
  | succ n ih =>
    intro s pool hn
    by_cases hp : pool.isEmpty
    · rw [List.isEmpty_iff] at hp
      subst hp
      simp at hn
    · simp only [drawAux, hp, Bool.false_eq_true, if_false, List.length_cons]
      have hx : pool.getD (lcg s % pool.length) 0 ∈ pool :=
        getD_mem_of_lt (Nat.mod_lt _ (List.length_pos.mpr
          (by simpa [List.isEmpty_iff] using hp)))
      rw [ih _ _ (by rw [List.length_erase_of_mem hx]; omega)]

lemma sampleIndices_nodup (N n seed : ℕ) : (sampleIndices N n seed).Nodup :=
  drawAux_nodup n seed _ (List.nodup_range N)

lemma sampleIndices_lt (N n seed : ℕ) : ∀ i ∈ sampleIndices N n seed, i < N := by
  intro i hi
  have := drawAux_subset n seed (List.range N) hi
  exact List.mem_range.mp this

lemma sampleIndices_length (N n seed : ℕ) (h : n ≤ N) :
    (sampleIndices N n seed).length = n :=
  drawAux_length n seed _ (by simpa using h)

lemma sampleList_mem (d : List FlightRecord) (n seed : ℕ) :
    ∀ x ∈ sampleList d n seed, x ∈ d := by
  intro x hx
  rcases List.mem_map.mp hx with ⟨i, hi, hix⟩
  have hlt : i < d.length := sampleIndices_lt _ _ _ i hi
  rw [← hix, List.getD_eq_getElem d default hlt]
  exact List.getElem_mem hlt

/-- Claim C1: for every dataset and every valid sample size `n`, the seeded
draw `sample(dataset, n, seed=42)` returns exactly `n` records taken at
pairwise-distinct positions of the dataset, and it is deterministic: two calls
with identical `(dataset, n, seed)` inputs return identical record lists in
identical order. -/
theorem sample_exactly_n_distinct_deterministic (d : List FlightRecord) (n : ℕ)
    (h : n ≤ d.length) :
    (sampleList d n 42).length = n ∧
    (sampleIndices d.length n 42).Nodup ∧
    (∀ i ∈ sampleIndices d.length n 42, i < d.length) ∧
    (∀ x ∈ sampleList d n 42, x ∈ d) ∧
    (∀ d' n', d' = d → n' = n → sampleList d' n' 42 = sampleList d n 42) := by
  refine ⟨?_, sampleIndices_nodup _ _ _, sampleIndices_lt _ _ _,
    sampleList_mem _ _ _, ?_⟩
  · rw [sampleList, List.length_map, sampleIndices_length _ _ _ h]
  · intro d' n' hd hn
    rw [hd, hn]

/-- Concrete instance of claim C1 on the three-row dataset with `n = 2`. -/
theorem sample_exactly_n_distinct_deterministic_check :
    2 ≤ scenarioFlight.length ∧
    (sampleList scenarioFlight 2 42).length = 2 ∧
    (sampleIndices scenarioFlight.length 2 42).Nodup ∧
    (∀ i ∈ sampleIndices scenarioFlight.length 2 42, i < scenarioFlight.length) ∧
    (∀ x ∈ sampleList scenarioFlight 2 42, x ∈ scenarioFlight) := by
  have h := sample_exactly_n_distinct_deterministic scenarioFlight 2 (by decide)
  exact ⟨by decide, h.1, h.2.1, h.2.2.1, h.2.2.2.1⟩

/-- Claim C2 counterexample: a requested size of `0` is not rejected — no
`InvalidSampleSize` error exists in the code, and `DataFrame.sample(n=0)`
returns an (empty) sample instead of raising. -/
theorem sample_size_zero_not_rejected :
    sampleE scenarioFlight 0 42 = Except.ok [] := by rfl

/-- Claim C2 (amended): the sample operation rejects a requested size `n`
outside `[0, len(dataset)]` — pandas raises `ValueError`, there is no
`InvalidSampleSize` — and this happens at the sampling line, before any
aggregation runs; but `n = 0` is accepted and yields an empty sample, not an
error. -/
theorem sample_rejection_boundary (d : List FlightRecord) (n : ℤ) :
    ((n < 0 ∨ (d.length : ℤ) < n) → ∃ e, sampleE d n 42 = Except.error e) ∧
    (0 ≤ n ∧ n ≤ (d.length : ℤ) →
      sampleE d n 42 = Except.ok (sampleList d n.toNat 42)) ∧
    sampleE d 0 42 = Except.ok [] := by
  refine ⟨?_, ?_, ?_⟩
  · intro h
    rcases h with h | h
    · exact ⟨SampleError.negativeSize, by simp [sampleE, h]⟩
    · have hn0 : ¬ n < 0 := by omega
      exact ⟨SampleError.sizeExceedsPopulation, by simp [sampleE, hn0, h]⟩
  · rintro ⟨h0, hlen⟩
    have h1 : ¬ n < 0 := by omega
    have h2 : ¬ (d.length : ℤ) < n := by omega
    simp [sampleE, h1, h2]
  · have h1 : ¬ (0 : ℤ) < 0 := by omega
    have h2 : ¬ (d.length : ℤ) < 0 := by omega
    simp [sampleE, h1, h2, sampleList, sampleIndices, drawAux]

/-- Concrete instance of the amended claim C2: on the three-row dataset,
`n = 5` exceeds the population and is rejected, and `n = 0` yields the empty
sample. -/
theorem sample_rejection_boundary_check :
    ((5 : ℤ) < 0 ∨ (scenarioFlight.length : ℤ) < 5) ∧
    (∃ e, sampleE scenarioFlight 5 42 = Except.error e) ∧
    sampleE scenarioFlight 0 42 = Except.ok [] :=
  ⟨by decide, (sample_rejection_boundary scenarioFlight 5).1 (by decide),
    (sample_rejection_boundary scenarioFlight 0).2.2⟩

lemma min_sample_size_eq (N : ℕ) : min_sample_size N = min 100 ((N : ℤ) - 1) := by
  unfold min_sample_size max_sample_size
  push_cast
  omega

lemma min_lt_max_sample_size (N : ℕ) :
    min_sample_size N < (max_sample_size N : ℤ) := by
  unfold min_sample_size
  omega

/-- Claim C3: every sample the dashboard actually draws has exactly the
requested size, and the requested size — constrained by the slider of lines
74–84 — lies in `[min(100, N-1), min(N, 1000)]` where `N = len(Dataset)`. -/
theorem slider_sample_size_invariant (d : List FlightRecord) (n : ℤ)
    (s : List FlightRecord) (hreach : reachableSize d.length n = true)
    (hdrawn : sampleE d n 42 = Except.ok s) :
    (s.length : ℤ) = n ∧
    min 100 ((d.length : ℤ) - 1) ≤ n ∧ n ≤ min (d.length : ℤ) 1000 := by
  have hc := min_lt_max_sample_size d.length
  rw [reachableSize, if_pos hc, decide_eq_true_eq] at hreach
  obtain ⟨hlo, hhi⟩ := hreach
  have hmax : (max_sample_size d.length : ℤ) = min (d.length : ℤ) 1000 := by
    unfold max_sample_size
    push_cast
    omega
  by_cases hn0 : n < 0
  · rw [sampleE, if_pos hn0] at hdrawn
    cases hdrawn
  have hle : ¬ (d.length : ℤ) < n := by omega
  rw [sampleE, if_neg hn0, if_neg hle] at hdrawn
  have hs : s = sampleList d n.toNat 42 := by
    cases hdrawn
    rfl
  subst hs
  refine ⟨?_, ?_, ?_⟩
  · rw [sampleList, List.length_map, sampleIndices_length _ _ _ (by omega)]
    omega
  · rw [← min_sample_size_eq]
    exact hlo
  · omega

/-- Concrete instance of claim C3: on the three-row dataset the slider offers
`n = 2`, and the drawn sample has exactly 2 rows within the stated bounds. -/
theorem slider_sample_size_invariant_check :
    reachableSize scenarioFlight.length 2 = true ∧
    ((sampleList scenarioFlight 2 42).length : ℤ) = 2 ∧
    min 100 ((scenarioFlight.length : ℤ) - 1) ≤ 2 ∧
    (2 : ℤ) ≤ min (scenarioFlight.length : ℤ) 1000 := by
  have h := slider_sample_size_invariant scenarioFlight 2
    (sampleList scenarioFlight 2 42) (by decide) (by rfl)
  exact ⟨by decide, h.1, h.2.1, h.2.2⟩

/-- Outcome of reading `FF_flights_data.csv`: the file may be missing,
unreadable or unparseable (each makes `pd.read_csv` raise an exception), or it
may parse to a — possibly empty — list of rows. -/
inductive ReadResult where
  | missing
  | unreadable
  | unparseable
  | parsed (rows : List FlightRecord)

/-- Lines 46–51, `load_data`: `pd.read_csv` inside a `try`; any raised
exception is caught (`st.error` shown) and `None` is returned.  A successful
parse returns the dataframe, even when it has zero rows. -/
def load_data : ReadResult → Option (List FlightRecord)
  | .parsed rows => some rows
  | _ => none

/-- The `@st.cache_data` memoization around `load_data` (line 45): given the
process-wide cache, return the value, the cache after the call, and whether
storage was read.  A cached value — even a cached `None` — is returned without
re-reading. -/
def cached_load (cache : Option (Option (List FlightRecord))) (fs : ReadResult) :
    Option (List FlightRecord) × Option (Option (List FlightRecord)) × Bool :=
  match cache with
  | some v => (v, some v, false)
  | none => (load_data fs, some (load_data fs), true)

/-- Lines 57–59: the app halts (`st.stop()`) exactly when `load_data` returned
`None`. -/
def app_halts (flight : Option (List FlightRecord)) : Bool := flight.isNone

/-- Claim C4 counterexample: a file that parses to an empty result does NOT
signal `DataUnavailable` — `load_data` returns an (empty) dataframe and the
app proceeds past the halt check, contrary to the claim that an empty result
halts all further processing. -/
theorem empty_csv_loads_and_proceeds :
    load_data (ReadResult.parsed []) = some [] ∧
    app_halts (load_data (ReadResult.parsed [])) = false :=
  ⟨rfl, rfl⟩

/-- Claim C4 (amended): `load_data` is memoized — a second call in the same
process returns the identical cached value without re-reading storage — and a
missing, unreadable or unparseable file yields no dataframe (`None`, shown as
an error) after which the app halts; but a file parsing to an empty result is
returned as an empty dataframe and processing continues. -/
theorem load_memoized_halts_on_failure (fs : ReadResult) :
    ((cached_load (cached_load none fs).2.1 fs).1 = (cached_load none fs).1 ∧
     (cached_load (cached_load none fs).2.1 fs).2.2 = false) ∧
    (fs = ReadResult.missing ∨ fs = ReadResult.unreadable ∨
        fs = ReadResult.unparseable →
      load_data fs = none ∧ app_halts (load_data fs) = true) ∧
    load_data (ReadResult.parsed []) = some [] := by
  refine ⟨⟨rfl, rfl⟩, ?_, rfl⟩
  rintro (rfl | rfl | rfl) <;> exact ⟨rfl, rfl⟩

/-- Concrete instance of the amended claim C4: a missing file yields no
dataframe and the app halts. -/
theorem load_memoized_halts_on_failure_check :
    load_data ReadResult.missing = none ∧
    app_halts (load_data ReadResult.missing) = true :=
  (load_memoized_halts_on_failure ReadResult.missing).2.1 (Or.inl rfl)

/-- Error taxonomy of the spec's aggregation contract; no such errors exist in
the source, the type only marks where they would be signalled. -/
inductive AggError where
  | emptyAggregation
  | missingColumn
deriving DecidableEq, Repr

/-- Line 98, `avg_dep_delay = flight['DEPARTURE_DELAY'].mean()`: the source has
no error path here — the mean of an empty column is NaN (`none`), always
wrapped in `.ok`. -/
def avg_dep_delay (flight : List FlightRecord) : Except AggError (Option ℚ) :=
  .ok (colMean (flight.map FlightRecord.departure_delay))

/-- Line 104, `avg_arr_delay = flight['ARRIVAL_DELAY'].mean()`. -/
def avg_arr_delay (flight : List FlightRecord) : Except AggError (Option ℚ) :=
  .ok (colMean (flight.map FlightRecord.arrival_delay))

/-- Claim C5 counterexample: on an empty dataset the overview mean departure
delay is the silently produced NaN (`none`) handed to the chart, not an
`EmptyAggregation` error. -/
theorem mean_empty_column_silent_nan :
    avg_dep_delay [] = Except.ok none ∧
    ∀ e, avg_dep_delay [] ≠ Except.error e := by
  refine ⟨rfl, ?_⟩
  intro e h
  simp [avg_dep_delay] at h

/-- Claim C5 (amended): the overview aggregation never signals any error; the
mean of an empty delay column is NaN (`none`), silently propagated to the
rendered metric. -/
theorem overview_mean_never_signals_error (flight : List FlightRecord) :
    (∀ e, avg_dep_delay flight ≠ Except.error e) ∧
    (flight = [] → avg_dep_delay flight = Except.ok none) := by
  constructor
  · intro e h
    simp [avg_dep_delay] at h
  · rintro rfl
    rfl

/-- Concrete instance of the amended claim C5 at the empty dataset. -/
theorem overview_mean_never_signals_error_check :
    avg_dep_delay [] = Except.ok none :=
  (overview_mean_never_signals_error []).2 rfl

/-- Claim C9: for every non-empty dataset the overview mean departure delay
lies between any lower bound and any upper bound of the `DEPARTURE_DELAY`
column (hence within `[min, max]`), and on the dataset whose departure delays
are `[10, -5, 20]` it equals `25/3`. -/
theorem overview_mean_within_bounds (flight : List FlightRecord)
    (h : flight ≠ []) (lo hi : ℚ)
    (hlo : ∀ r ∈ flight, lo ≤ r.departure_delay)
    (hhi : ∀ r ∈ flight, r.departure_delay ≤ hi) :
    (∃ q, avg_dep_delay flight = Except.ok (some q) ∧ lo ≤ q ∧ q ≤ hi) ∧
    avg_dep_delay scenarioFlight = Except.ok (some (25/3)) := by
  constructor
  · have hxs : flight.map FlightRecord.departure_delay ≠ [] := by
      simpa using h
    have hlen0 : 0 < (flight.map FlightRecord.departure_delay).length :=
      List.length_pos.mpr hxs
    have hlen : 0 < ((flight.map FlightRecord.departure_delay).length : ℚ) := by
      exact_mod_cast hlen0
    refine ⟨(flight.map FlightRecord.departure_delay).sum /
      ((flight.map FlightRecord.departure_delay).length : ℚ), ?_, ?_, ?_⟩
    · rw [avg_dep_delay, colMean,
        if_neg (by simpa [List.isEmpty_iff] using hxs)]
    · have h1 : (flight.map FlightRecord.departure_delay).length • lo ≤
          (flight.map FlightRecord.departure_delay).sum := by
        refine List.card_nsmul_le_sum _ lo ?_
        intro x hx
        rcases List.mem_map.mp hx with ⟨r, hr, hrx⟩
        exact hrx ▸ hlo r hr
      rw [nsmul_eq_mul] at h1
      rw [le_div_iff₀ hlen]
      linarith
    · have h1 : (flight.map FlightRecord.departure_delay).sum ≤
          (flight.map FlightRecord.departure_delay).length • hi := by
        refine List.sum_le_card_nsmul _ hi ?_
        intro x hx
        rcases List.mem_map.mp hx with ⟨r, hr, hrx⟩
        exact hrx ▸ hhi r hr
      rw [nsmul_eq_mul] at h1
      rw [div_le_iff₀ hlen]
      linarith
  · norm_num [avg_dep_delay, scenarioFlight, colMean]

/-- Concrete instance of claim C9 on the `[10, -5, 20]` scenario dataset with
bounds `-5` and `20`. -/
theorem overview_mean_within_bounds_check :
    scenarioFlight ≠ [] ∧
    (∃ q, avg_dep_delay scenarioFlight = Except.ok (some q) ∧
      -5 ≤ q ∧ q ≤ 20) := by
  have h := overview_mean_within_bounds scenarioFlight (by decide) (-5) 20
    (by decide) (by decide)
  exact ⟨by decide, h.1⟩

/-- The group keys of `sampled_data.groupby('AIRLINE')` (line 157): the
distinct airlines of the sample, sorted ascending (`sort=True`, the pandas
default). -/
def airlineKeys (s : List FlightRecord) : List String :=
  List.insertionSort (fun a b => a ≤ b) ((s.map FlightRecord.airline).dedup)

/-- The rows of one `groupby('AIRLINE')` group. -/
def airlineGroup (s : List FlightRecord) (a : String) : List FlightRecord :=
  s.filter (fun r => r.airline == a)

/-- One output row of the performance table of lines 157–161: per airline, mean
and standard deviation of the delays and mean distance, all rounded to two
decimal places.  Standard deviations live in `ℝ` (a square root); `none` is
the NaN pandas produces for a single-row group with `ddof = 1`. -/
structure MetricsRow where
  airline : String
  departure_delay_mean : Option ℚ
  departure_delay_std : Option ℝ
  arrival_delay_mean : Option ℚ
  arrival_delay_std : Option ℝ
  distance_mean : Option ℚ

/-- Round-half-to-even on `ℝ` (`numpy.round` tie rule). -/
noncomputable def roundHalfEvenR (x : ℝ) : ℤ :=
  let n := ⌊x⌋
  let f := x - (n : ℝ)
  if f < 1/2 then n
  else if 1/2 < f then n + 1
  else if Even n then n else n + 1

/-- `round(2)` on a real entry. -/
noncomputable def round2R (x : ℝ) : ℝ := (roundHalfEvenR (x * 100) : ℝ) / 100

/-- `Series.std()` (`ddof = 1`) rounded to two decimals. -/
noncomputable def stdRound2 (xs : List ℚ) : Option ℝ :=
  (sampleVar xs).map (fun v => round2R (Real.sqrt (v : ℝ)))

/-- The aggregated row of one airline group (lines 157–161). -/
noncomputable def metricsRow (s : List FlightRecord) (a : String) : MetricsRow :=
  { airline := a
    departure_delay_mean :=
      (colMean ((airlineGroup s a).map FlightRecord.departure_delay)).map round2
    departure_delay_std :=
      stdRound2 ((airlineGroup s a).map FlightRecord.departure_delay)
    arrival_delay_mean :=
      (colMean ((airlineGroup s a).map FlightRecord.arrival_delay)).map round2
    arrival_delay_std :=
      stdRound2 ((airlineGroup s a).map FlightRecord.arrival_delay)
    distance_mean :=
      (colMean ((airlineGroup s a).map FlightRecord.distance)).map round2 }

/-- Lines 157–161, `metrics = sampled_data.groupby('AIRLINE').agg({...}).round(2)`:
one aggregated row per group key. -/
noncomputable def metrics (s : List FlightRecord) : List MetricsRow :=
  (airlineKeys s).map (metricsRow s)

lemma key_count_sum {α : Type} [DecidableEq α] :
    ∀ K : List α, K.Nodup → ∀ L : List α, (∀ a ∈ L, a ∈ K) →
      (K.map (fun a => L.count a)).sum = L.length := by
  intro K
  induction K with
  | nil =>
    intro _ L hL
    have hLnil : L = [] := List.eq_nil_iff_forall_not_mem.mpr
      (fun a ha => by simpa using hL a ha)
    subst hLnil
    rfl
  | cons k K ih =>
    intro hnd L hL
    have hKnd := List.nodup_cons.mp hnd
    simp only [List.map_cons, List.sum_cons]
    have hsplit : (L.filter (fun a => a == k)).length +
        (L.filter (fun a => !(a == k))).length = L.length := by
      have hp := (List.filter_append_perm (fun a => a == k) L).length_eq
      simpa [List.length_append] using hp
    have hcount : L.count k = (L.filter (fun a => a == k)).length := by
      rw [List.count_eq_countP, List.countP_eq_length_filter]
    have hcongr : K.map (fun a => L.count a) =
        K.map (fun a => (L.filter (fun a => !(a == k))).count a) := by
      refine List.map_congr_left ?_
      intro a haK
      have hne : a ≠ k := fun h => hKnd.1 (h ▸ haK)
      exact (List.count_filter (by simp [hne])).symm
    have hmem : ∀ a ∈ L.filter (fun a => !(a == k)), a ∈ K := by
      intro a ha
      have hmf := List.mem_filter.mp ha
      have hane : a ≠ k := by simpa using hmf.2
      rcases List.mem_cons.mp (hL a hmf.1) with h | h
      · exact absurd h hane
      · exact h
    rw [hcongr, ih hKnd.2 _ hmem, hcount]
    exact hsplit

lemma airlineGroup_length (s : List FlightRecord) (a : String) :
    (airlineGroup s a).length = (s.map FlightRecord.airline).count a := by
  rw [airlineGroup, ← List.countP_eq_length_filter, List.count_eq_countP,
    List.countP_map]
  rfl

lemma metrics_map_airline (s : List FlightRecord) :
    (metrics s).map MetricsRow.airline = airlineKeys s := by
  rw [metrics, List.map_map]
  have h1 : ∀ a ∈ airlineKeys s, (MetricsRow.airline ∘ metricsRow s) a = id a :=
    fun a _ => rfl
  rw [List.map_congr_left h1, List.map_id]

/-- Claim C6: the performance aggregation produces exactly one row per distinct
airline present in the sample — its key column is duplicate-free and contains
an airline iff the sample does — and the per-group row counts sum to the
sample size. -/
theorem metrics_one_row_per_airline (s : List FlightRecord) :
    ((metrics s).map MetricsRow.airline).Nodup ∧
    (∀ a, a ∈ (metrics s).map MetricsRow.airline ↔
      a ∈ s.map FlightRecord.airline) ∧
    (metrics s).length = ((s.map FlightRecord.airline).dedup).length ∧
    ((airlineKeys s).map (fun a => (airlineGroup s a).length)).sum = s.length := by
  have hperm : List.Perm (airlineKeys s) ((s.map FlightRecord.airline).dedup) :=
    List.perm_insertionSort _ _
  refine ⟨?_, ?_, ?_, ?_⟩
  · rw [metrics_map_airline]
    exact hperm.nodup_iff.mpr (List.nodup_dedup _)
  · intro a
    rw [metrics_map_airline]
    simp [airlineKeys, List.mem_insertionSort, List.mem_dedup]
  · rw [metrics, List.length_map, airlineKeys, List.length_insertionSort]
  · calc ((airlineKeys s).map (fun a => (airlineGroup s a).length)).sum
        = ((airlineKeys s).map
            (fun a => (s.map FlightRecord.airline).count a)).sum := by
          rw [List.map_congr_left (fun a _ => airlineGroup_length s a)]
      _ = (((s.map FlightRecord.airline).dedup).map
            (fun a => (s.map FlightRecord.airline).count a)).sum :=
          (hperm.map _).sum_eq
      _ = (s.map FlightRecord.airline).length :=
          key_count_sum _ (List.nodup_dedup _) _
            (fun a ha => List.mem_dedup.mpr ha)
      _ = s.length := List.length_map _ _

/-- Lexicographic order on `(ORIGIN_AIRPORT, DESTINATION_AIRPORT)` group keys,
the pandas multi-key sort order. -/
def routeLex (a b : String × String) : Prop :=
  a.1 < b.1 ∨ (a.1 = b.1 ∧ a.2 ≤ b.2)

instance : DecidableRel routeLex := fun a b =>
  inferInstanceAs (Decidable (a.1 < b.1 ∨ (a.1 = b.1 ∧ a.2 ≤ b.2)))

/-- Group keys of `groupby(['ORIGIN_AIRPORT', 'DESTINATION_AIRPORT'])`
(line 227): distinct route pairs, sorted (pandas default `sort=True`). -/
def routeKeys (s : List FlightRecord) : List (String × String) :=
  List.insertionSort routeLex
    ((s.map (fun r => (r.origin_airport, r.destination_airport))).dedup)

/-- The rows of one route group. -/
def routeGroup (s : List FlightRecord) (k : String × String) :
    List FlightRecord :=
  s.filter (fun r => (r.origin_airport, r.destination_airport) == k)

/-- A column mean as a sort key: pandas `sort_values(ascending=False)` places
NaN last, so the NaN of an empty column is embedded as `⊥`. -/
def wbMean (xs : List ℚ) : WithBot ℚ :=
  match colMean xs with
  | none => ⊥
  | some q => (q : WithBot ℚ)

/-- One row of the route table of lines 227–231: mean arrival delay, mean
departure delay and first observed distance per route. -/
structure RouteRow where
  origin_airport : String
  destination_airport : String
  arrival_delay_mean : WithBot ℚ
  departure_delay_mean : WithBot ℚ
  distance_first : Option ℚ

/-- The aggregated row of one route group. -/
def routeRow (s : List FlightRecord) (k : String × String) : RouteRow :=
  { origin_airport := k.1
    destination_airport := k.2
    arrival_delay_mean :=
      wbMean ((routeGroup s k).map FlightRecord.arrival_delay)
    departure_delay_mean :=
      wbMean ((routeGroup s k).map FlightRecord.departure_delay)
    distance_first := ((routeGroup s k).map FlightRecord.distance).head? }

/-- Lines 227–231: `route_stats`, the grouped route table before sorting. -/
def route_stats (s : List FlightRecord) : List RouteRow :=
  (routeKeys s).map (routeRow s)

/-- The key order of `sort_values('ARRIVAL_DELAY', ascending=False)`:
descending by mean arrival delay. -/
def byArrDelayDesc (a b : RouteRow) : Prop :=
  b.arrival_delay_mean ≤ a.arrival_delay_mean

instance : DecidableRel byArrDelayDesc := fun a b =>
  inferInstanceAs (Decidable (b.arrival_delay_mean ≤ a.arrival_delay_mean))

/-- Line 233: `route_stats.sort_values('ARRIVAL_DELAY', ascending=False)`
followed by `.head(10)`.  The source sorts with the pandas default
`kind='quicksort'` (numpy introsort), whose ordering of tied keys is
implementation-defined and not stable; this model realises one particular
sorted permutation of the rows (via an insertion sort), and nothing proved in
this file depends on, or asserts anything about, the relative order of rows
with equal mean arrival delay. -/
def route_stats_sorted (s : List FlightRecord) : List RouteRow :=
  (List.insertionSort byArrDelayDesc (route_stats s)).take 10

/-- Mean of a rational column viewed in `ℝ` (the degenerate empty-column case
is never reached under the variance hypotheses of the theorems below). -/
noncomputable def meanR (xs : List ℚ) : ℝ := ((xs.sum : ℚ) : ℝ) / (xs.length : ℝ)

/-- The covariance kernel behind `DataFrame.corr` (Pearson, the default):
mean of the products of the centred columns. -/
noncomputable def covR (xs ys : List ℚ) : ℝ :=
  (List.zipWith (fun (a b : ℚ) => ((a : ℝ) - meanR xs) * ((b : ℝ) - meanR ys))
    xs ys).sum / (xs.length : ℝ)

/-- Variance of a column, `covR` of the column with itself. -/
noncomputable def varR (xs : List ℚ) : ℝ := covR xs xs

/-- One entry of the Pearson correlation matrix: covariance normalised by the
product of the standard deviations. -/
noncomputable def corrR (xs ys : List ℚ) : ℝ :=
  covR xs ys / (Real.sqrt (varR xs) * Real.sqrt (varR ys))

/-- The columns of `sampled_data[['DEPARTURE_DELAY', 'ARRIVAL_DELAY',
'DISTANCE']]` (line 209). -/
def delayCols : List (FlightRecord → ℚ) :=
  [FlightRecord.departure_delay, FlightRecord.arrival_delay,
   FlightRecord.distance]

/-- The numeric columns kept by `select_dtypes(include=['float64', 'int64'])`
(line 239): every column of the schema except the three string-valued ones. -/
def numericCols : List (FlightRecord → ℚ) :=
  [FlightRecord.flight_number, FlightRecord.scheduled_departure,
   FlightRecord.departure_delay, FlightRecord.arrival_delay,
   FlightRecord.distance, FlightRecord.day_of_week, FlightRecord.month]

/-- `.corr()` of the given columns over a sample: the matrix of pairwise
Pearson correlations. -/
noncomputable def corrMatrix (cols : List (FlightRecord → ℚ))
    (s : List FlightRecord) : Fin cols.length → Fin cols.length → ℝ :=
  fun i j => corrR (s.map (cols.get i)) (s.map (cols.get j))

/-- Line 209: `delay_corr = sampled_data[[...]].corr()`. -/
noncomputable def delay_corr (s : List FlightRecord) :
    Fin delayCols.length → Fin delayCols.length → ℝ :=
  corrMatrix delayCols s

/-- Line 239: `corr = sampled_data.select_dtypes(include=[...]).corr()`. -/
noncomputable def corr (s : List FlightRecord) :
    Fin numericCols.length → Fin numericCols.length → ℝ :=
  corrMatrix numericCols s

lemma zip_center_sum_comm (mx my : ℝ) :
    ∀ xs ys : List ℚ,
      (List.zipWith (fun (a b : ℚ) => ((a : ℝ) - mx) * ((b : ℝ) - my)) xs ys).sum =
      (List.zipWith (fun (b a : ℚ) => ((b : ℝ) - my) * ((a : ℝ) - mx)) ys xs).sum := by
  intro xs
  induction xs with
  | nil => intro ys; cases ys <;> simp
  | cons x xs ih =>
    intro ys
    cases ys with
    | nil => simp
    | cons y ys =>
      rw [List.zipWith_cons_cons, List.zipWith_cons_cons, List.sum_cons,
        List.sum_cons, ih ys]
      ring

lemma covR_comm (xs ys : List ℚ) (h : xs.length = ys.length) :
    covR xs ys = covR ys xs := by
  rw [covR, covR, h, zip_center_sum_comm]

lemma varR_nonneg (xs : List ℚ) : 0 ≤ varR xs := by
  rw [varR, covR]
  apply div_nonneg
  · apply List.sum_nonneg
    intro x hx
    rw [List.zipWith_same] at hx
    rcases List.mem_map.mp hx with ⟨a, _, rfl⟩
    exact mul_self_nonneg _
  · exact Nat.cast_nonneg _

lemma corrR_self (xs : List ℚ) (h : varR xs ≠ 0) : corrR xs xs = 1 := by
  rw [corrR, Real.mul_self_sqrt (varR_nonneg xs), ← varR]
  exact div_self h

lemma corrR_comm (xs ys : List ℚ) (h : xs.length = ys.length) :
    corrR xs ys = corrR ys xs := by
  rw [corrR, corrR, covR_comm xs ys h, mul_comm]

/-- Claim C8: both correlation matrices the pipeline computes — `delay_corr`
over the three delay/distance columns (line 209) and `corr` over all numeric
columns (line 239) — are symmetric, and each diagonal entry at a column of
non-zero variance is `1`. -/
theorem corr_symmetric_diag_one (s : List FlightRecord) :
    (∀ i j, delay_corr s i j = delay_corr s j i) ∧
    (∀ i, varR (s.map (delayCols.get i)) ≠ 0 → delay_corr s i i = 1) ∧
    (∀ i j, corr s i j = corr s j i) ∧
    (∀ i, varR (s.map (numericCols.get i)) ≠ 0 → corr s i i = 1) := by
  refine ⟨?_, ?_, ?_, ?_⟩
  · intro i j
    show corrR (s.map (delayCols.get i)) (s.map (delayCols.get j)) =
      corrR (s.map (delayCols.get j)) (s.map (delayCols.get i))
    exact corrR_comm _ _ (by simp)
  · intro i h
    exact corrR_self _ h
  · intro i j
    show corrR (s.map (numericCols.get i)) (s.map (numericCols.get j)) =
      corrR (s.map (numericCols.get j)) (s.map (numericCols.get i))
    exact corrR_comm _ _ (by simp)
  · intro i h
    exact corrR_self _ h

/-- Concrete instance of claim C8: on the scenario dataset the departure-delay
column `[10, -5, 20]` has non-zero variance and its diagonal correlation is
`1`. -/
theorem corr_symmetric_diag_one_check :
    varR (scenarioFlight.map (delayCols.get ⟨0, by decide⟩)) ≠ 0 ∧
    delay_corr scenarioFlight ⟨0, by decide⟩ ⟨0, by decide⟩ = 1 := by
  have hcol : scenarioFlight.map (delayCols.get ⟨0, by decide⟩) =
      [10, -5, 20] := rfl
  have hv : varR (scenarioFlight.map (delayCols.get ⟨0, by decide⟩)) ≠ 0 := by
    rw [hcol]
    norm_num [varR, covR, meanR, List.zipWith_cons_cons]
  exact ⟨hv, (corr_symmetric_diag_one scenarioFlight).2.1 ⟨0, by decide⟩ hv⟩

/-- Line 114: `flight['AIRLINE'].value_counts()` — distinct airlines with
their frequencies, most frequent first. -/
def airline_data (flight : List FlightRecord) : List (String × ℕ) :=
  List.insertionSort (fun a b => b.2 ≤ a.2)
    (((flight.map FlightRecord.airline).dedup).map
      (fun a => (a, (flight.map FlightRecord.airline).count a)))

/-- Lines 132–136: `flight.groupby('MONTH').agg({...})` — per-month flight
count and mean delays, keys sorted ascending. -/
def monthly_data (flight : List FlightRecord) :
    List (ℚ × ℕ × Option ℚ × Option ℚ) :=
  (List.insertionSort (fun a b => a ≤ b)
      ((flight.map FlightRecord.month).dedup)).map
    (fun m =>
      (m, (flight.filter (fun r => r.month == m)).length,
       colMean ((flight.filter (fun r => r.month == m)).map
         FlightRecord.departure_delay),
       colMean ((flight.filter (fun r => r.month == m)).map
         FlightRecord.arrival_delay)))

/-- Lines 182–183: `sampled_data.groupby('SCHEDULED_DEPARTURE')
[['DEPARTURE_DELAY']].mean()` — mean departure delay per scheduled time. -/
def hourly (s : List FlightRecord) : List (ℚ × Option ℚ) :=
  (List.insertionSort (fun a b => a ≤ b)
      ((s.map FlightRecord.scheduled_departure).dedup)).map
    (fun t => (t, colMean ((s.filter
      (fun r => r.scheduled_departure == t)).map
        FlightRecord.departure_delay)))

/-- The linear-interpolation quantile of `Series.quantile`, as used by
`describe`. -/
def quantile (xs : List ℚ) (p : ℚ) : Option ℚ :=
  if xs.isEmpty then none
  else
    let sorted := List.insertionSort (fun a b => a ≤ b) xs
    let pos : ℚ := p * ((xs.length : ℚ) - 1)
    let i : ℕ := (⌊pos⌋).toNat
    let lo := sorted.getD i 0
    let hi := sorted.getD (i + 1) lo
    some (lo + (pos - (i : ℚ)) * (hi - lo))

/-- `Series.std()` (`ddof = 1`) unrounded, as `describe` reports it. -/
noncomputable def stdR (xs : List ℚ) : Option ℝ :=
  (sampleVar xs).map (fun v => Real.sqrt (v : ℝ))

/-- One row of `sampled_data.describe()` (line 246): count, mean, std, min,
quartiles and max of one numeric column. -/
structure DescribeRow where
  count : ℕ
  mean : Option ℚ
  std : Option ℝ
  min : Option ℚ
  q25 : Option ℚ
  q50 : Option ℚ
  q75 : Option ℚ
  max : Option ℚ

/-- Line 246: `sampled_data.describe()`, one row per numeric column. -/
noncomputable def describe (s : List FlightRecord) : List DescribeRow :=
  numericCols.map (fun col =>
    { count := (s.map col).length
      mean := colMean (s.map col)
      std := stdR (s.map col)
      min := (s.map col).min?
      q25 := quantile (s.map col) (1/4)
      q50 := quantile (s.map col) (1/2)
      q75 := quantile (s.map col) (3/4)
      max := (s.map col).max? })

/-- The six sidebar navigation pages (lines 65–72). -/
inductive Page where
  | dashboardOverview
  | performanceAnalytics
  | timeAnalysis
  | delayPatterns
  | routeAnalysis
  | statisticalInsights
deriving DecidableEq, Repr

/-- The data each view hands to its chart renderers: every table or matrix the
view computes, together with the dataframe its charts draw from directly. -/
inductive ViewOut where
  | overview (totalFlights : ℕ) (avgDep avgArr : Except AggError (Option ℚ))
      (airlineCounts : List (String × ℕ))
      (monthly : List (ℚ × ℕ × Option ℚ × Option ℚ))
  | performance (table : List MetricsRow) (scatterSource : List FlightRecord)
  | timeAnalysis (hourlyMeans : List (ℚ × Option ℚ))
      (boxSource : List FlightRecord)
  | delayPatterns (histogramSource : List FlightRecord) (nbins : ℕ)
      (delayCorrMatrix : Fin delayCols.length → Fin delayCols.length → ℝ)
  | routeAnalysis (scatterSource : List FlightRecord) (table : List RouteRow)
  | statisticalInsights
      (corrMatrixAll : Fin numericCols.length → Fin numericCols.length → ℝ)
      (summary : List DescribeRow)

/-- Lines 89–246: the view dispatch.  Each branch computes its aggregations
from the full dataset (`flight`) or from the pre-drawn sample (`sampled`). -/
noncomputable def renderView (flight sampled : List FlightRecord) :
    Page → ViewOut
  | .dashboardOverview =>
      .overview flight.length (avg_dep_delay flight) (avg_arr_delay flight)
        (airline_data flight) (monthly_data flight)
  | .performanceAnalytics => .performance (metrics sampled) sampled
  | .timeAnalysis => .timeAnalysis (hourly sampled) sampled
  | .delayPatterns => .delayPatterns sampled 50 (delay_corr sampled)
  | .routeAnalysis => .routeAnalysis sampled (route_stats_sorted sampled)
  | .statisticalInsights => .statisticalInsights (corr sampled) (describe sampled)

/-- Lines 86–87 followed by the dispatch: one user interaction draws the
sample once — before any view is chosen — then renders the selected page. -/
noncomputable def interaction (flight : List FlightRecord) (page : Page)
    (sample_size : ℕ) : List FlightRecord × ViewOut :=
  let sampled := sampleList flight sample_size 42
  (sampled, renderView flight sampled page)

/-- Claim C10: the drawn sample does not depend on the selected view — for a
fixed dataset and sample size, two interactions differing only in the chosen
page use the identical sample: same records, same order. -/
theorem sample_independent_of_view (flight : List FlightRecord)
    (sample_size : ℕ) (p₁ p₂ : Page) :
    (interaction flight p₁ sample_size).1 =
      (interaction flight p₂ sample_size).1 :=
  rfl
